import Mathlib

/-!
Verification development for the `euroleague_basketball` repository.

The Python modules under verification are shallowly embedded as Lean
definitions:

* `src/utils/name_normalizer.py` and the static normalization helpers of
  `src/scrapers/base_scraper.py` (string pipelines over `List Char`);
* `src/services/hometown_lookup.py` (the priority-ordered multi-source
  lookup, with scraper calls, the cache and the database abstracted as
  explicit parameters / event lists);
* the HTTP wrappers and the rate limiter of `src/scrapers/base_scraper.py`;
* `src/services/data_validator.py`.

Python strings are modelled as Lean `String`/`List Char`; Python `None`
for optional values is `Option.none`; Python dictionaries holding a fixed
set of keys are records of `Option` fields; Python truthiness of a string
field (`None` and `""` are falsy) is `truthyStr`.  The external `unidecode`
library is an abstract parameter `uni : String → String` (both call sites
under verification apply it to the same intermediate string, and no claim
depends on its concrete values).  Unicode lowercasing: `.lower()` is
modelled on the ASCII range; for non-ASCII input the composition with the
abstract `uni` parameter absorbs the difference, and every theorem below is
quantified over `uni`.
-/

/-- Python truthiness of an optional string: `None` and `""` are falsy. -/
def truthyStr : Option String → Bool
  | none => false
  | some s => s ≠ ""

/-- Python truthiness of an optional bool field (absent key is falsy). -/
def truthyBool : Option Bool → Bool
  | none => false
  | some b => b

/-- Python truthiness of an optional int field (absent key and `0` are falsy). -/
def truthyInt : Option Int → Bool
  | none => false
  | some n => n ≠ 0

/-- The character class matched by the regex `\s` (and stripped by
`str.strip()`): ASCII whitespace, the control-block separators, and the Unicode
space characters.  Both normalizers under verification use the same
class, and no theorem depends on its exact extent. -/
def pyWs (c : Char) : Bool :=
  c = ' ' || c = '\t' || c = '\n' || c = '\x0b' || c = '\x0c' || c = '\r' ||
  c = '\x1c' || c = '\x1d' || c = '\x1e' || c = '\x1f' ||
  c = '\x85' || c = '\xa0' || c = '\u1680' ||
  ('\u2000' ≤ c && c ≤ '\u200A') ||
  c = '\u2028' || c = '\u2029' || c = '\u202F' || c = '\u205F' || c = '\u3000'

/-- Model of `str.lower()` on the ASCII range (see the module comment). -/
def pyLowerChar (c : Char) : Char :=
  if 'A' ≤ c && c ≤ 'Z' then Char.ofNat (c.toNat + 32) else c

/-- Model of `str.lower()` over a character list. -/
def pyLower (l : List Char) : List Char := l.map pyLowerChar

/-- Model of `str.strip()`: drop leading and trailing whitespace. -/
def pyStrip (l : List Char) : List Char :=
  ((l.dropWhile pyWs).reverse.dropWhile pyWs).reverse

/-- Lower-case ASCII letter or digit: the class kept by
`re.sub(r'[^a-z0-9\s]', '', ...)` besides whitespace. -/
def isLowerAlnum (c : Char) : Bool :=
  ('a' ≤ c && c ≤ 'z') || ('0' ≤ c && c ≤ '9')

/-- Model of `re.sub(r'[^a-z0-9\s]', '', s)`: keep lower-case alphanumerics and
whitespace, drop everything else. -/
def keepAlnumWs (l : List Char) : List Char :=
  l.filter (fun c => isLowerAlnum c || pyWs c)

/-- Worker for `re.sub(r'\s+', rep, s)` with a one-character replacement:
the flag records whether we are inside a whitespace run (whose first
character already emitted the replacement). -/
def collapseGo (rep : Char) : Bool → List Char → List Char
  | _, [] => []
  | inRun, c :: cs =>
    if pyWs c then
      if inRun then collapseGo rep true cs
      else rep :: collapseGo rep true cs
    else c :: collapseGo rep false cs

/-- Model of `re.sub(r'\s+', rep, s)` for a one-character `rep`: replace each maximal whitespace run by
the single character `rep`. -/
def collapseWs (rep : Char) (l : List Char) : List Char :=
  collapseGo rep false l

/-- Model of `str.replace(' ', '_')` (single-character pattern, hence a map). -/
def spaceToUnderscore (l : List Char) : List Char :=
  l.map (fun c => if c = ' ' then '_' else c)

/-- The shared preprocessing `unidecode(name.lower().strip())` of both
normalizers, with `unidecode` the abstract parameter `uni`. -/
def pyPreprocess (uni : String → String) (s : String) : List Char :=
  (uni (String.mk (pyStrip (pyLower s.data)))).data

/-- Embedding of `NameNormalizer.normalize` (src/utils/name_normalizer.py, lines 13-41).
The input is `Option String` so that the Python `None` argument (falsy,
like `""`) is covered. -/
def NameNormalizer.normalize (uni : String → String) (name : Option String) : String :=
  match name with
  | none => ""
  | some s =>
    if s = "" then ""
    else
      let normalized := pyPreprocess uni s
      let normalized := keepAlnumWs normalized
      let normalized := collapseWs ' ' normalized
      String.mk (spaceToUnderscore normalized)

/-- Embedding of `BaseScraper.normalize_name` (src/scrapers/base_scraper.py,
lines 562-611). -/
def BaseScraper.normalize_name (uni : String → String) (name : Option String) : String :=
  match name with
  | none => ""
  | some s =>
    if s = "" then ""
    else
      let normalized := pyPreprocess uni s
      let normalized := keepAlnumWs normalized
      String.mk (collapseWs '_' normalized)

/-- Embedding of `BaseScraper.normalize_team_id`: `f"{league_id}_{normalized}"`. -/
def BaseScraper.normalize_team_id (uni : String → String)
    (league_id : String) (team_name : Option String) : String :=
  league_id ++ "_" ++ BaseScraper.normalize_name uni team_name

/-- Embedding of `BaseScraper.normalize_player_id`: `f"{league_id}_{normalized}"`. -/
def BaseScraper.normalize_player_id (uni : String → String)
    (league_id : String) (player_name : Option String) : String :=
  league_id ++ "_" ++ BaseScraper.normalize_name uni player_name

/-- Characters of the class `[A-Za-z0-9_]`. -/
def isIdChar (c : Char) : Bool :=
  ('A' ≤ c && c ≤ 'Z') || ('a' ≤ c && c ≤ 'z') || ('0' ≤ c && c ≤ '9') || c = '_'

/-- Model of `re.match(r'^[A-Za-z0-9_]+$', s)` as a boolean: the whole string is a
nonempty run of id characters, or such a run followed by one final
newline (`$` also matches just before a trailing `'\n'`). -/
def reMatchIdAnchored (l : List Char) : Bool :=
  (decide (l ≠ []) && l.all isIdChar) ||
  (match l.getLast? with
   | some c =>
     decide (c = '\n') && decide (l.dropLast ≠ []) && l.dropLast.all isIdChar
   | none => false)

/-- Embedding of `DataValidator._is_valid_id` (src/services/data_validator.py,
lines 244-249). -/
def DataValidator.is_valid_id (id_value : String) : Bool :=
  if id_value = "" then false
  else reMatchIdAnchored id_value.data

/-!
Embedding of `src/services/hometown_lookup.py`.

A scraper's `lookup_player` call is abstracted as an `Outcome`: it can
raise (caught by the service), return a falsy value (`None` or an empty
dict), or return a truthy dict of biography fields (`SourceRes`).  The
database connector is an optional `DbEnv`: a cache-read function (which
may itself raise) and a predicate saying which cache writes raise.  The
service's observable behaviour is collected in a trace: the returned
record, the list of sources consulted in order, and the list of
successfully stored cache writes `(key, source_name, raw_result)`.
-/

/-- A truthy dict returned by `scraper.lookup_player`: the eight biography
fields read by `_merge_results` plus its `lookup_successful` flag. -/
structure SourceRes where
  hometown_city : Option String := none
  hometown_state : Option String := none
  high_school : Option String := none
  high_school_city : Option String := none
  high_school_state : Option String := none
  college : Option String := none
  photo_url : Option String := none
  profile_url : Option String := none
  lookup_successful : Bool := false
  deriving DecidableEq

/-- The result dict built by `lookup_player_hometown` (lines 65-77). -/
structure LookupRecord where
  hometown_city : Option String := none
  hometown_state : Option String := none
  high_school : Option String := none
  high_school_city : Option String := none
  high_school_state : Option String := none
  college : Option String := none
  photo_url : Option String := none
  profile_url : Option String := none
  source : Option String := none
  lookup_successful : Bool := false
  needs_manual_review : Bool := false
  deriving DecidableEq

/-- The initial result dict of `lookup_player_hometown`: every field
`None`, both flags `False`. -/
def initResult : LookupRecord := {}

/-- One step of the `_merge_results` loop body:
`if not target.get(key) and source.get(key): target[key] = source[key]`. -/
def mergeField (t s : Option String) : Option String :=
  if !truthyStr t && truthyStr s then s else t

/-- Embedding of `HometownLookupService._merge_results` (lines 117-135):
merge the eight fields without overwriting truthy target values, then set
`source` when it is unset and the source dict says `lookup_successful`. -/
def HometownLookupService.merge_results
    (target : LookupRecord) (source : SourceRes) (source_name : String) : LookupRecord :=
  { target with
    hometown_city := mergeField target.hometown_city source.hometown_city
    hometown_state := mergeField target.hometown_state source.hometown_state
    high_school := mergeField target.high_school source.high_school
    high_school_city := mergeField target.high_school_city source.high_school_city
    high_school_state := mergeField target.high_school_state source.high_school_state
    college := mergeField target.college source.college
    photo_url := mergeField target.photo_url source.photo_url
    profile_url := mergeField target.profile_url source.profile_url
    source :=
      if !truthyStr target.source && source.lookup_successful then some source_name
      else target.source }

/-- Embedding of `HometownLookupService._has_required_data` (lines
109-115): `bool(result.get('hometown_state') or result.get('high_school'))`. -/
def HometownLookupService.has_required_data (result : LookupRecord) : Bool :=
  truthyStr result.hometown_state || truthyStr result.high_school

/-- Behaviour of one `scraper.lookup_player(player_name)` call. -/
inductive Outcome where
  | raises
  | returns (r : Option SourceRes)
  deriving DecidableEq

/-- The row returned by `db.get_hometown_cache` when truthy. -/
structure CacheRow where
  hometown_city : Option String := none
  hometown_state : Option String := none
  high_school : Option String := none
  high_school_city : Option String := none
  high_school_state : Option String := none
  college : Option String := none
  photo_url : Option String := none
  profile_url : Option String := none
  lookup_source : Option String := none
  lookup_successful : Bool := false
  deriving DecidableEq

/-- The database connector: the cache read for a normalized name (which
may raise, or return a falsy row), and which cache writes raise
(`cacheWriteRaises key source_name`). -/
structure DbEnv where
  getCache : String → Except Unit (Option CacheRow)
  cacheWriteRaises : String → String → Bool

/-- The names of the three scrapers in priority order
(`HometownLookupService.__init__`, lines 34-39). -/
def scraperNames : List String :=
  ["basketball_reference", "wikipedia", "grokepedia"]

/-- The scraper list of `__init__` paired with the behaviour of each
scraper's `lookup_player` call for the player being looked up. -/
def scrapersInit (o1 o2 o3 : Outcome) : List (String × Outcome) :=
  [("basketball_reference", o1), ("wikipedia", o2), ("grokepedia", o3)]

/-- Embedding of `HometownLookupService._cache_result` (lines 170-185) as
the list of cache rows actually stored: without a database nothing is
stored; a raising `db.cache_hometown_lookup` call is swallowed and stores
nothing. -/
def HometownLookupService.cache_result
    (db : Option DbEnv) (key source_name : String) (result : SourceRes) :
    List (String × String × SourceRes) :=
  match db with
  | none => []
  | some d => if d.cacheWriteRaises key source_name then [] else [(key, source_name, result)]

/-- Observable trace of the source loop of `lookup_player_hometown`. -/
structure RunTrace where
  result : LookupRecord
  consulted : List String
  cacheWrites : List (String × String × SourceRes)
  deriving DecidableEq

/-- The `for source_name, scraper in self.scrapers` loop of
`lookup_player_hometown` (lines 79-100): on a raising call log and
continue; on a falsy result continue; on a truthy result merge, cache
when a database is attached, and break with `lookup_successful = True` as
soon as the accumulated result has the required data. -/
def runSources (db : Option DbEnv) (key : String) :
    LookupRecord → List (String × Outcome) → RunTrace
  | r, [] => ⟨r, [], []⟩
  | r, (name, o) :: rest =>
    match o with
    | .raises =>
      let t := runSources db key r rest
      ⟨t.result, name :: t.consulted, t.cacheWrites⟩
    | .returns none =>
      let t := runSources db key r rest
      ⟨t.result, name :: t.consulted, t.cacheWrites⟩
    | .returns (some sr) =>
      let r1 := HometownLookupService.merge_results r sr name
      let ws := HometownLookupService.cache_result db key name sr
      if HometownLookupService.has_required_data r1 then
        ⟨{ r1 with lookup_successful := true }, [name], ws⟩
      else
        let t := runSources db key r1 rest
        ⟨t.result, name :: t.consulted, ws ++ t.cacheWrites⟩

/-- Embedding of `HometownLookupService._get_cached_result` (lines
137-168): `None` without a database, on a raising read, or on a falsy
row; otherwise the row mapped back to a result dict.  The Python dict
returned here carries no `needs_manual_review` key; reading that key
would yield a falsy value, hence `false` here. -/
def HometownLookupService.get_cached_result
    (db : Option DbEnv) (normalized_name : String) : Option LookupRecord :=
  match db with
  | none => none
  | some d =>
    match d.getCache normalized_name with
    | .error _ => none
    | .ok none => none
    | .ok (some row) =>
      some { hometown_city := row.hometown_city
             hometown_state := row.hometown_state
             high_school := row.high_school
             high_school_city := row.high_school_city
             high_school_state := row.high_school_state
             college := row.college
             photo_url := row.photo_url
             profile_url := row.profile_url
             source := row.lookup_source
             lookup_successful := row.lookup_successful
             needs_manual_review := false }

/-- Observable trace of a whole `lookup_player_hometown` call.
`fromCache` records whether the early cache-hit return fired. -/
structure LookupTrace where
  result : LookupRecord
  consulted : List String
  cacheWrites : List (String × String × SourceRes)
  fromCache : Bool
  deriving DecidableEq

/-- The part of `lookup_player_hometown` after the cache check (lines
64-107): run the source loop from the fresh result dict, and mark for
manual review unless a break set `lookup_successful`. -/
def HometownLookupService.lookup_core
    (db : Option DbEnv) (key : String) (o1 o2 o3 : Outcome) : LookupTrace :=
  let t := runSources db key initResult (scrapersInit o1 o2 o3)
  let final :=
    if !t.result.lookup_successful then { t.result with needs_manual_review := true }
    else t.result
  ⟨final, t.consulted, t.cacheWrites, false⟩

/-- Embedding of `HometownLookupService.lookup_player_hometown` (lines
41-107), with the three scrapers' behaviours for this player passed as
`o1 o2 o3`: normalize the name, return a successful cached result when
the cache is enabled and hits, and otherwise run the source loop. -/
def HometownLookupService.lookup_player_hometown
    (uni : String → String) (db : Option DbEnv) (o1 o2 o3 : Outcome)
    (player_name : Option String) (force_refresh : Bool) : LookupTrace :=
  let normalized_name := BaseScraper.normalize_name uni player_name
  let cached : Option LookupRecord :=
    if !force_refresh && db.isSome then
      HometownLookupService.get_cached_result db normalized_name
    else none
  match cached with
  | some c =>
    if c.lookup_successful then ⟨c, [], [], true⟩
    else HometownLookupService.lookup_core db normalized_name o1 o2 o3
  | none => HometownLookupService.lookup_core db normalized_name o1 o2 o3

/-- The effect of one outcome on the accumulated result dict: a truthy
source result is merged, anything else leaves it unchanged. -/
def applyOutcome (r : LookupRecord) (name : String) (o : Outcome) : LookupRecord :=
  match o with
  | .returns (some sr) => HometownLookupService.merge_results r sr name
  | _ => r

/-- The source list consulted according to the specification's words:
consult in the given order, and stop as soon as the accumulated result
has at least one of state / high school populated. -/
def claimConsulted : LookupRecord → List (String × Outcome) → List String
  | _, [] => []
  | r, (name, o) :: rest =>
    let r' := applyOutcome r name o
    name :: (if HometownLookupService.has_required_data r' then [] else claimConsulted r' rest)

/-- The accumulated result dict after consulting every source in the
list, with no early stop (used to phrase total-failure hypotheses). -/
def accumulate : LookupRecord → List (String × Outcome) → LookupRecord
  | r, [] => r
  | r, (name, o) :: rest => accumulate (applyOutcome r name o) rest

/-- One row of `db.get_players_needing_hometown_lookup()`. -/
structure PlayerRow where
  player_id : Option String := none
  full_name : Option String := none
  deriving DecidableEq

/-- A database mutation issued by `process_all_american_players`. -/
inductive DbAction where
  | updateHometown (player_id : Option String)
      (hometown_city hometown_state high_school high_school_city
       high_school_state college hometown_source : Option String)
  | markForReview (player_id : Option String)
  deriving DecidableEq

/-- The body of the player loop of
`HometownLookupService.process_all_american_players` (lines 210-237): a
successful lookup updates the player record, anything else marks the
player for manual review.  `outs` gives each scraper's behaviour for a
given player name. -/
def HometownLookupService.process_player
    (uni : String → String) (db : DbEnv)
    (outs : Option String → Outcome × Outcome × Outcome) (p : PlayerRow) : DbAction :=
  let o := outs p.full_name
  let r := (HometownLookupService.lookup_player_hometown uni (some db)
    o.1 o.2.1 o.2.2 p.full_name false).result
  if r.lookup_successful then
    .updateHometown p.player_id r.hometown_city r.hometown_state r.high_school
      r.high_school_city r.high_school_state r.college r.source
  else
    .markForReview p.player_id

/-- Embedding of the batch loop of
`HometownLookupService.process_all_american_players` as the list of
database mutations it issues, in order. -/
def HometownLookupService.process_all_american_players
    (uni : String → String) (db : DbEnv)
    (outs : Option String → Outcome × Outcome × Outcome)
    (players : List PlayerRow) : List DbAction :=
  players.map (HometownLookupService.process_player uni db outs)

/-!
Embedding of the HTTP wrappers and the rate limiter of
`src/scrapers/base_scraper.py`.

The outcome of one `session.get` / `session.post` call (the retry policy
included) is abstracted as a `ReqAttempt`: either some
`requests.RequestException` is raised, or a response object with a status
code comes back, on which `raise_for_status` then raises exactly for the
4xx/5xx range.  Logging is modelled as a list of tagged events.  Time is
modelled as an explicit rational clock: a request sequence is driven by
the list of ambient delays elapsing before each call of the wrapper, and
`time.sleep(d)` advances the clock by `d`.
-/

/-- A `requests.Response` object: the status code plus an opaque body. -/
structure HttpResponse where
  status_code : Nat
  body : String
  deriving DecidableEq

/-- Outcome of one underlying `session.get`/`session.post` call. -/
inductive ReqAttempt where
  | raises
  | responds (r : HttpResponse)
  deriving DecidableEq

/-- A log line emitted by the HTTP wrappers. -/
inductive LogEvent where
  | requestFailed (url : String)
  | getOk (url : String) (status : Nat)
  | postFailed (url : String)
  | postOk (url : String) (status : Nat)
  deriving DecidableEq

/-- Whether `response.raise_for_status()` raises: exactly the 4xx/5xx
status range. -/
def raiseForStatusRaises (r : HttpResponse) : Bool :=
  400 ≤ r.status_code && r.status_code < 600

/-- Embedding of `BaseScraper._get` (src/scrapers/base_scraper.py, lines
308-369), timing aside: the returned value and the log events.  Every
`requests.RequestException` — raised by the call itself or by
`raise_for_status` — is caught, logged and turned into `None`. -/
def BaseScraper.get (url : String) (attempt : ReqAttempt) :
    Option HttpResponse × List LogEvent :=
  match attempt with
  | .raises => (none, [.requestFailed url])
  | .responds r =>
    if raiseForStatusRaises r then (none, [.requestFailed url])
    else (some r, [.getOk url r.status_code])

/-- Embedding of `BaseScraper._post` (lines 371-428), timing aside. -/
def BaseScraper.post (url : String) (attempt : ReqAttempt) :
    Option HttpResponse × List LogEvent :=
  match attempt with
  | .raises => (none, [.postFailed url])
  | .responds r =>
    if raiseForStatusRaises r then (none, [.postFailed url])
    else (some r, [.postOk url r.status_code])

/-- Clock state of a scraper instance: `self.last_request_time` and the
current value of `time.time()`. -/
structure RlState where
  last_request_time : ℚ
  now : ℚ
  deriving DecidableEq

/-- Embedding of `BaseScraper._rate_limit_wait` (lines 269-306): when
less than `rate_limit` passed since the last request, sleep for the
difference (advancing the clock); then record the current time as the
last request time. -/
def BaseScraper.rate_limit_wait (rate_limit : ℚ) (s : RlState) : RlState :=
  let elapsed := s.now - s.last_request_time
  let s1 := if elapsed < rate_limit then { s with now := s.now + (rate_limit - elapsed) } else s
  { s1 with last_request_time := s1.now }

/-- Issue times of a sequence of requests by one scraper instance: before
each request the ambient delay `d` elapses, then `_rate_limit_wait` runs
and the request is issued at the freshly recorded
`last_request_time` (the wrapper issues it directly after the wait). -/
def requestTimes (rate_limit : ℚ) : RlState → List ℚ → List ℚ
  | _, [] => []
  | s, d :: ds =>
    let s' := BaseScraper.rate_limit_wait rate_limit { s with now := s.now + d }
    s'.last_request_time :: requestTimes rate_limit s' ds

/-!
Embedding of `src/services/data_validator.py`.

A data dict is a record of every key read by the four validators; absent
keys are `none`.  A date-typed value (`birth_date`, `game_date`) is a
`datetime.date`/`datetime.datetime` instance or a string.  `US_STATES`
comes from `config/settings.py`, which is not part of the sources under
verification, so it stays an explicit list parameter.  Strings are
modelled on the ASCII range (`str.isdigit` / `int()` agree with the model
there).
-/

/-- A `birth_date` / `game_date` value: a date object or a string. -/
inductive DateVal where
  | pyDate (y m d : Nat)
  | pyStr (s : String)
  deriving DecidableEq

/-- Python truthiness of an optional date value: date objects are always
truthy, strings are truthy when nonempty. -/
def truthyDate : Option DateVal → Bool
  | none => false
  | some (.pyDate _ _ _) => true
  | some (.pyStr s) => s ≠ ""

/-- ASCII digit test. -/
def isAsciiDigit (c : Char) : Bool := '0' ≤ c && c ≤ '9'

/-- Numeric value of an ASCII digit. -/
def digitVal (c : Char) : Nat := c.toNat - '0'.toNat

/-- Worker for strptime `%Y`: exactly four digits. -/
def matchYear4 : List Char → Option (Nat × List Char)
  | a :: b :: c :: d :: rest =>
    if isAsciiDigit a && isAsciiDigit b && isAsciiDigit c && isAsciiDigit d then
      some (((digitVal a * 10 + digitVal b) * 10 + digitVal c) * 10 + digitVal d, rest)
    else none
  | _ => none

/-- Worker for strptime `%m`, the ordered alternation `1[0-2]|0[1-9]|[1-9]`
(backtracking cannot matter here: the second character of a two-digit
branch is a digit, never a separator). -/
def matchMonth : List Char → Option (Nat × List Char)
  | [] => none
  | c :: rest =>
    if c = '1' then
      match rest with
      | c2 :: rest2 =>
        if '0' ≤ c2 && c2 ≤ '2' then some (10 + digitVal c2, rest2) else some (1, rest)
      | [] => some (1, [])
    else if c = '0' then
      match rest with
      | c2 :: rest2 => if '1' ≤ c2 && c2 ≤ '9' then some (digitVal c2, rest2) else none
      | [] => none
    else if '2' ≤ c && c ≤ '9' then some (digitVal c, rest)
    else none

/-- Worker for strptime `%d`, the ordered alternation
`3[01]|[12]\d|0[1-9]|[1-9]`. -/
def matchDay : List Char → Option (Nat × List Char)
  | [] => none
  | c :: rest =>
    if c = '3' then
      match rest with
      | c2 :: rest2 =>
        if c2 = '0' || c2 = '1' then some (30 + digitVal c2, rest2) else some (3, rest)
      | [] => some (3, [])
    else if c = '1' || c = '2' then
      match rest with
      | c2 :: rest2 =>
        if isAsciiDigit c2 then some (10 * digitVal c + digitVal c2, rest2)
        else some (digitVal c, rest)
      | [] => some (digitVal c, [])
    else if c = '0' then
      match rest with
      | c2 :: rest2 => if '1' ≤ c2 && c2 ≤ '9' then some (digitVal c2, rest2) else none
      | [] => none
    else if '4' ≤ c && c ≤ '9' then some (digitVal c, rest)
    else none

/-- Worker for a literal separator character in a strptime format. -/
def matchLit (sep : Char) : List Char → Option (List Char)
  | [] => none
  | c :: rest => if c = sep then some rest else none

/-- Gregorian leap year, as in `datetime`. -/
def isLeapYear (y : Nat) : Bool := (y % 4 = 0 && y % 100 ≠ 0) || y % 400 = 0

/-- Days in a month, as validated by the `datetime` constructor. -/
def daysInMonth (y m : Nat) : Nat :=
  if m = 2 then (if isLeapYear y then 29 else 28)
  else if m = 4 || m = 6 || m = 9 || m = 11 then 30
  else 31

/-- The `datetime` constructor checks left to strptime's regex: year at
least `MINYEAR = 1`, day within the month (the regex already bounds the
month to 1..12 and the day to 1..31). -/
def validDateParts (y m d : Nat) : Bool := 1 ≤ y && d ≤ daysInMonth y m

/-- Model of `datetime.strptime(s, '%Y-%m-%d')` (and the `/` variant)
succeeding: the whole string must be consumed. -/
def tryFormatYMD (sep : Char) (l : List Char) : Bool :=
  match matchYear4 l with
  | none => false
  | some (y, r1) =>
    match matchLit sep r1 with
    | none => false
    | some r2 =>
      match matchMonth r2 with
      | none => false
      | some (m, r3) =>
        match matchLit sep r3 with
        | none => false
        | some r4 =>
          match matchDay r4 with
          | none => false
          | some (d, r5) => decide (r5 = []) && validDateParts y m d

/-- Model of `datetime.strptime(s, '%d-%m-%Y')` (and the `/` variant)
succeeding. -/
def tryFormatDMY (sep : Char) (l : List Char) : Bool :=
  match matchDay l with
  | none => false
  | some (d, r1) =>
    match matchLit sep r1 with
    | none => false
    | some r2 =>
      match matchMonth r2 with
      | none => false
      | some (m, r3) =>
        match matchLit sep r3 with
        | none => false
        | some r4 =>
          match matchYear4 r4 with
          | none => false
          | some (y, r5) => decide (r5 = []) && validDateParts y m d

/-- Embedding of `DataValidator._is_valid_date` (lines 251-266): date
objects are valid; a string is valid when its first ten characters parse
under one of the four formats. -/
def DataValidator.is_valid_date : DateVal → Bool
  | .pyDate _ _ _ => true
  | .pyStr s =>
    let l := s.data.take 10
    tryFormatYMD '-' l || tryFormatYMD '/' l || tryFormatDMY '-' l || tryFormatDMY '/' l

/-- Zero-padded decimal rendering (for `str(date)` in f-strings). -/
def padNat (w n : Nat) : String :=
  let s := toString n
  String.mk (List.replicate (w - s.length) '0') ++ s

/-- Rendering of a date value inside an f-string. -/
def pyShowDate : DateVal → String
  | .pyDate y m d => padNat 4 y ++ "-" ++ padNat 2 m ++ "-" ++ padNat 2 d
  | .pyStr s => s

/-- Model of `str.isdigit` on the ASCII range. -/
def pyIsdigit (s : String) : Bool := decide (s ≠ "") && s.data.all isAsciiDigit

/-- Model of `int(s)` for a digit string. -/
def pyIntOfDigits (s : String) : Nat :=
  s.data.foldl (fun a c => a * 10 + digitVal c) 0

/-- A data dict passed to the validators: every key any of the four
validators reads. -/
structure Item where
  team_id : Option String := none
  team_name : Option String := none
  league_id : Option String := none
  player_id : Option String := none
  full_name : Option String := none
  birth_date : Option DateVal := none
  height_cm : Option Int := none
  weight_kg : Option Int := none
  jersey_number : Option String := none
  is_american : Option Bool := none
  hometown_state : Option String := none
  game_id : Option String := none
  game_date : Option DateVal := none
  status : Option String := none
  home_score : Option Int := none
  away_score : Option Int := none
  did_not_play : Option Bool := none
  points : Option Int := none
  rebounds_total : Option Int := none
  assists : Option Int := none
  fg_made : Option Int := none
  fg_attempted : Option Int := none
  three_pt_made : Option Int := none
  three_pt_attempted : Option Int := none
  ft_made : Option Int := none
  ft_attempted : Option Int := none
  deriving DecidableEq

/-- Embedding of `DataValidator.validate_team` (lines 31-55). -/
def DataValidator.validate_team (team : Item) : Bool × List String :=
  let errors :=
    (if !truthyStr team.team_id then ["Missing team_id"] else []) ++
    (if !truthyStr team.team_name then ["Missing team_name"] else []) ++
    (if !truthyStr team.league_id then ["Missing league_id"] else []) ++
    (match team.team_id with
     | some s =>
       if s ≠ "" && !DataValidator.is_valid_id s then ["Invalid team_id format: " ++ s]
       else []
     | none => [])
  (errors.isEmpty, errors)

/-- Embedding of `DataValidator.validate_player` (lines 61-111), with the
`US_STATES` constant of the absent `config/settings.py` as the parameter
`usStates`. -/
def DataValidator.validate_player (usStates : List String) (player : Item) :
    Bool × List String :=
  let errors :=
    (if !truthyStr player.player_id then ["Missing player_id"] else []) ++
    (if !truthyStr player.full_name then ["Missing full_name"] else []) ++
    (match player.player_id with
     | some s =>
       if s ≠ "" && !DataValidator.is_valid_id s then ["Invalid player_id format: " ++ s]
       else []
     | none => []) ++
    (match player.birth_date with
     | some v =>
       if truthyDate (some v) && !DataValidator.is_valid_date v then
         ["Invalid birth_date: " ++ pyShowDate v]
       else []
     | none => []) ++
    (match player.height_cm with
     | some h => if h ≠ 0 && !(150 ≤ h && h ≤ 250) then ["Suspicious height_cm: " ++ toString h] else []
     | none => []) ++
    (match player.weight_kg with
     | some w => if w ≠ 0 && !(50 ≤ w && w ≤ 200) then ["Suspicious weight_kg: " ++ toString w] else []
     | none => []) ++
    (match player.jersey_number with
     | some j =>
       if j ≠ "" && !(pyIsdigit j && pyIntOfDigits j ≤ 99) && j ≠ "00" then
         ["Invalid jersey_number: " ++ j]
       else []
     | none => []) ++
    (if truthyBool player.is_american then
       match player.hometown_state with
       | some s =>
         if s ≠ "" && !usStates.contains s then
           ["Invalid hometown_state for American: " ++ s]
         else []
       | none => []
     else [])
  (errors.isEmpty, errors)

/-- Embedding of `DataValidator.validate_game` (lines 117-155). -/
def DataValidator.validate_game (game : Item) : Bool × List String :=
  let errors :=
    (if !truthyStr game.game_id then ["Missing game_id"] else []) ++
    (if !truthyDate game.game_date then ["Missing game_date"] else []) ++
    (match game.game_date with
     | some v =>
       if truthyDate (some v) && !DataValidator.is_valid_date v then
         ["Invalid game_date: " ++ pyShowDate v]
       else []
     | none => []) ++
    (if game.status = some "completed" then
       (match game.home_score with
        | none => ["Completed game missing home_score"]
        | some _ => []) ++
       (match game.away_score with
        | none => ["Completed game missing away_score"]
        | some _ => []) ++
       (match game.home_score with
        | some h => if !(0 ≤ h && h ≤ 200) then ["Suspicious home_score: " ++ toString h] else []
        | none => []) ++
       (match game.away_score with
        | some a => if !(0 ≤ a && a ≤ 200) then ["Suspicious away_score: " ++ toString a] else []
        | none => [])
     else [])
  (errors.isEmpty, errors)

/-- Embedding of `DataValidator.validate_game_stat` (lines 161-211):
after the required-field checks a truthy `did_not_play` returns early. -/
def DataValidator.validate_game_stat (stat : Item) : Bool × List String :=
  let base :=
    (if !truthyStr stat.player_id then ["Missing player_id"] else []) ++
    (if !truthyStr stat.game_id then ["Missing game_id"] else [])
  if truthyBool stat.did_not_play then (base.isEmpty, base)
  else
    let errors := base ++
      (match stat.points with
       | some p => if !(0 ≤ p && p ≤ 80) then ["Suspicious points: " ++ toString p] else []
       | none => []) ++
      (match stat.rebounds_total with
       | some r => if !(0 ≤ r && r ≤ 35) then ["Suspicious rebounds: " ++ toString r] else []
       | none => []) ++
      (match stat.assists with
       | some a => if !(0 ≤ a && a ≤ 25) then ["Suspicious assists: " ++ toString a] else []
       | none => []) ++
      (match stat.fg_made, stat.fg_attempted with
       | some m, some a =>
         if m > a then
           ["FG made (" ++ toString m ++ ") > attempted (" ++ toString a ++ ")"]
         else []
       | _, _ => []) ++
      (match stat.three_pt_made, stat.three_pt_attempted with
       | some m, some a => if m > a then ["3PT made > attempted"] else []
       | _, _ => []) ++
      (match stat.ft_made, stat.ft_attempted with
       | some m, some a => if m > a then ["FT made > attempted"] else []
       | _, _ => [])
    (errors.isEmpty, errors)

/-- The `validators` dict of `validate_and_clean_batch` (lines 340-345),
as a partial map from the item type string. -/
def DataValidator.validators (usStates : List String) (item_type : String) :
    Option (Item → Bool × List String) :=
  if item_type = "team" then some DataValidator.validate_team
  else if item_type = "player" then some (DataValidator.validate_player usStates)
  else if item_type = "game" then some DataValidator.validate_game
  else if item_type = "game_stat" then some DataValidator.validate_game_stat
  else none

/-- The item loop of `validate_and_clean_batch` (lines 354-363): valid
items in order, invalid items with their error lists in order, and the
warning events (one error list each) in order. -/
def batchGo (v : Item → Bool × List String) :
    List Item → List Item × List (Item × List String) × List (List String)
  | [] => ([], [], [])
  | it :: rest =>
    let t := batchGo v rest
    if (v it).1 then (it :: t.1, t.2.1, t.2.2)
    else (t.1, (it, (v it).2) :: t.2.1, (v it).2 :: t.2.2)

/-- Embedding of `DataValidator.validate_and_clean_batch` (lines
329-365): an unknown item type raises `ValueError`, otherwise the batch
is partitioned with no exception. -/
def DataValidator.validate_and_clean_batch (usStates : List String)
    (items : List Item) (item_type : String) :
    Except String (List Item × List (Item × List String) × List (List String)) :=
  match DataValidator.validators usStates item_type with
  | none => .error ("Unknown item type: " ++ item_type)
  | some v => .ok (batchGo v items)

/-- The eight field names of `fields_to_merge` in `_merge_results`. -/
inductive MField where
  | hometown_city | hometown_state | high_school | high_school_city
  | high_school_state | college | photo_url | profile_url
  deriving DecidableEq

/-- Read one of the eight merged fields from a result dict. -/
def LookupRecord.getM (r : LookupRecord) : MField → Option String
  | .hometown_city => r.hometown_city
  | .hometown_state => r.hometown_state
  | .high_school => r.high_school
  | .high_school_city => r.high_school_city
  | .high_school_state => r.high_school_state
  | .college => r.college
  | .photo_url => r.photo_url
  | .profile_url => r.profile_url

/-- Read one of the eight merged fields from a source dict. -/
def SourceRes.getM (r : SourceRes) : MField → Option String
  | .hometown_city => r.hometown_city
  | .hometown_state => r.hometown_state
  | .high_school => r.high_school
  | .high_school_city => r.high_school_city
  | .high_school_state => r.high_school_state
  | .college => r.college
  | .photo_url => r.photo_url
  | .profile_url => r.profile_url

/-- ASCII alphanumeric character (the class `[A-Za-z0-9]`). -/
def isAlnumChar (c : Char) : Bool :=
  ('A' ≤ c && c ≤ 'Z') || ('a' ≤ c && c ≤ 'z') || ('0' ≤ c && c ≤ '9')

/-!
Theorems.  Helper lemmas come first; each claim of the specification is
settled by one named theorem (with a witness instantiation when the
theorem carries hypotheses).
-/

theorem pyWs_space : pyWs ' ' = true := by decide

theorem spaceToUnderscore_collapseGo (l : List Char) (b : Bool) :
    spaceToUnderscore (collapseGo ' ' b l) = collapseGo '_' b l := by
  induction l generalizing b with
  | nil => rfl
  | cons c cs ih =>
    cases hw : pyWs c with
    | true =>
      cases b with
      | true => simpa [collapseGo, hw] using ih true
      | false =>
        have : spaceToUnderscore (' ' :: collapseGo ' ' true cs) =
            '_' :: spaceToUnderscore (collapseGo ' ' true cs) := by
          simp [spaceToUnderscore]
        simp [collapseGo, hw, this, ih true]
    | false =>
      have hc : ¬ c = ' ' := by
        intro h; rw [h, pyWs_space] at hw; cases hw
      have : spaceToUnderscore (c :: collapseGo ' ' false cs) =
          c :: spaceToUnderscore (collapseGo ' ' false cs) := by
        simp [spaceToUnderscore, hc]
      simp [collapseGo, hw, this, ih false]

/-- C9: `NameNormalizer.normalize` and `BaseScraper.normalize_name`
compute the same function for every input (including `None` and the
empty string) and every behaviour of the external `unidecode`, so cache
keys and IDs built from either normalizer agree. -/
theorem c9_normalizers_compute_same_function (uni : String → String)
    (name : Option String) :
    NameNormalizer.normalize uni name = BaseScraper.normalize_name uni name := by
  cases name with
  | none => rfl
  | some s =>
    unfold NameNormalizer.normalize BaseScraper.normalize_name
    by_cases hs : s = ""
    · simp [hs]
    · simp only [hs, if_false, collapseWs, spaceToUnderscore_collapseGo]

theorem mem_collapseGo (rep : Char) :
    ∀ (b : Bool) (l : List Char) (c : Char),
      c ∈ collapseGo rep b l → c = rep ∨ (c ∈ l ∧ pyWs c = false) := by
  intro b l
  induction l generalizing b with
  | nil => intro c h; simp [collapseGo] at h
  | cons x xs ih =>
    intro c h
    cases hw : pyWs x with
    | true =>
      cases b with
      | true =>
        rw [collapseGo, if_pos hw] at h
        rcases ih true c h with h' | ⟨hm, hws⟩
        · exact Or.inl h'
        · exact Or.inr ⟨List.mem_cons_of_mem _ hm, hws⟩
      | false =>
        rw [collapseGo, if_pos hw] at h
        rcases List.mem_cons.mp h with h' | h'
        · exact Or.inl h'
        · rcases ih true c h' with h'' | ⟨hm, hws⟩
          · exact Or.inl h''
          · exact Or.inr ⟨List.mem_cons_of_mem _ hm, hws⟩
    | false =>
      rw [collapseGo, if_neg (by simp [hw])] at h
      rcases List.mem_cons.mp h with h' | h'
      · exact Or.inr ⟨by simp [h'], by rwa [h']⟩
      · rcases ih false c h' with h'' | ⟨hm, hws⟩
        · exact Or.inl h''
        · exact Or.inr ⟨List.mem_cons_of_mem _ hm, hws⟩

theorem normalize_name_chars (uni : String → String) (name : Option String) :
    ∀ c ∈ (BaseScraper.normalize_name uni name).data,
      isLowerAlnum c = true ∨ c = '_' := by
  intro c hc
  cases name with
  | none => simp [BaseScraper.normalize_name] at hc
  | some s =>
    unfold BaseScraper.normalize_name at hc
    by_cases hs : s = ""
    · simp [hs] at hc
    · simp only [hs, if_false] at hc
      rcases mem_collapseGo '_' false _ c hc with h | ⟨hm, hws⟩
      · exact Or.inr h
      · rcases List.mem_filter.mp hm with ⟨_, hp⟩
        rcases Bool.or_eq_true_iff.mp hp with h' | h'
        · exact Or.inl h'
        · rw [h'] at hws; cases hws

theorem lowerAlnum_idChar {c : Char} (h : isLowerAlnum c = true) : isIdChar c = true := by
  simp only [isLowerAlnum, Bool.or_eq_true, decide_eq_true_eq, Bool.and_eq_true] at h
  simp only [isIdChar, Bool.or_eq_true, decide_eq_true_eq, Bool.and_eq_true]
  tauto

theorem alnum_idChar {c : Char} (h : isAlnumChar c = true) : isIdChar c = true := by
  simp only [isAlnumChar, Bool.or_eq_true, decide_eq_true_eq, Bool.and_eq_true] at h
  simp only [isIdChar, Bool.or_eq_true, decide_eq_true_eq, Bool.and_eq_true]
  tauto

theorem valid_id_of_all_idChar (s : String) (hne : s ≠ "")
    (h : ∀ c ∈ s.data, isIdChar c = true) : DataValidator.is_valid_id s = true := by
  have hdata : s.data ≠ [] := by
    intro hd
    apply hne
    cases s with
    | mk l => simpa [String.ext_iff] using hd
  unfold DataValidator.is_valid_id reMatchIdAnchored
  rw [if_neg hne]
  apply Bool.or_eq_true_iff.mpr
  refine Or.inl ?_
  rw [Bool.and_eq_true, List.all_eq_true]
  exact ⟨by simp [hdata], h⟩

/-- C10: every name produced by `BaseScraper.normalize_name` consists
only of lower-case ASCII letters, digits and underscores; hence every
nonempty normalized name, and every player or team ID built from one
with an alphanumeric league prefix, satisfies
`DataValidator._is_valid_id`. -/
theorem c10_normalized_names_are_valid_ids (uni : String → String)
    (name : Option String) (league_id : String) :
    (∀ c ∈ (BaseScraper.normalize_name uni name).data,
        isLowerAlnum c = true ∨ c = '_') ∧
    (BaseScraper.normalize_name uni name ≠ "" →
        DataValidator.is_valid_id (BaseScraper.normalize_name uni name) = true) ∧
    ((∀ c ∈ league_id.data, isAlnumChar c = true) →
        DataValidator.is_valid_id (BaseScraper.normalize_player_id uni league_id name) = true ∧
        DataValidator.is_valid_id (BaseScraper.normalize_team_id uni league_id name) = true) := by
  refine ⟨normalize_name_chars uni name, ?_, ?_⟩
  · intro hne
    refine valid_id_of_all_idChar _ hne ?_
    intro c hc
    rcases normalize_name_chars uni name c hc with h | h
    · exact lowerAlnum_idChar h
    · simp [isIdChar, h]
  · intro hleague
    have hid : ∀ c ∈ (league_id ++ "_" ++ BaseScraper.normalize_name uni name).data,
        isIdChar c = true := by
      intro c hc
      rw [String.data_append, String.data_append] at hc
      rcases List.mem_append.mp hc with hc' | hc'
      · rcases List.mem_append.mp hc' with hc'' | hc''
        · exact alnum_idChar (hleague c hc'')
        · simp only [List.mem_singleton] at hc''
          simp [isIdChar, hc'']
      · rcases normalize_name_chars uni name c hc' with h | h
        · exact lowerAlnum_idChar h
        · simp [isIdChar, h]
    have hne : (league_id ++ "_" ++ BaseScraper.normalize_name uni name) ≠ "" := by
      intro he
      have : ('_' : Char) ∈ (league_id ++ "_" ++ BaseScraper.normalize_name uni name).data := by
        rw [String.data_append, String.data_append]
        exact List.mem_append.mpr (Or.inl (List.mem_append.mpr (Or.inr (by simp))))
      rw [he] at this
      simp at this
    exact ⟨valid_id_of_all_idChar _ hne hid, valid_id_of_all_idChar _ hne hid⟩

/-- Witness for C10 at a concrete name and league prefix. -/
theorem c10_witness :
    (∀ c ∈ (("EUROLEAGUE" : String)).data, isAlnumChar c = true) ∧
    DataValidator.is_valid_id
      (BaseScraper.normalize_player_id id "EUROLEAGUE" (some "LeBron James")) = true :=
  ⟨by decide,
    ((c10_normalized_names_are_valid_ids id (some "LeBron James") "EUROLEAGUE").2.2
      (by decide)).1⟩

theorem mergeField_spec (t s : Option String) :
    (truthyStr t = true → mergeField t s = t) ∧
    (mergeField t s ≠ t →
      truthyStr t = false ∧ truthyStr s = true ∧ mergeField t s = s) := by
  unfold mergeField
  cases ht : truthyStr t <;> cases hs : truthyStr s <;> simp [ht, hs]

/-- C2: `_merge_results` never overwrites a field already populated by an
earlier source: every one of the eight merged fields that is truthy in
the target keeps its value, and a field changes only by being copied
from the source when the target field was falsy and the source field
truthy. -/
theorem c2_merge_never_overwrites (target : LookupRecord) (source : SourceRes)
    (source_name : String) (f : MField) :
    (truthyStr (target.getM f) = true →
      (HometownLookupService.merge_results target source source_name).getM f =
        target.getM f) ∧
    ((HometownLookupService.merge_results target source source_name).getM f ≠
        target.getM f →
      truthyStr (target.getM f) = false ∧ truthyStr (source.getM f) = true ∧
      (HometownLookupService.merge_results target source source_name).getM f =
        source.getM f) := by
  cases f <;>
    simpa [HometownLookupService.merge_results, LookupRecord.getM, SourceRes.getM]
      using mergeField_spec _ _

/-- Witness for C2: a populated hometown city survives a merge. -/
theorem c2_witness :
    truthyStr (LookupRecord.getM { hometown_city := some "Columbus" } .hometown_city) = true ∧
    (HometownLookupService.merge_results { hometown_city := some "Columbus" }
        { hometown_city := some "Akron" } "wikipedia").getM .hometown_city =
      LookupRecord.getM { hometown_city := some "Columbus" } .hometown_city :=
  ⟨by decide,
    (c2_merge_never_overwrites { hometown_city := some "Columbus" }
      { hometown_city := some "Akron" } "wikipedia" .hometown_city).1 (by decide)⟩

/-- C6: the HTTP wrappers return `None` and log an error whenever the
request raises or the response status is in the 4xx/5xx range, and
return the response object on success; no requests exception propagates
(the embedding is a total function of the attempt's outcome). -/
theorem c6_http_wrappers_return_none_on_failure (url : String) (attempt : ReqAttempt) :
    (attempt = .raises →
      BaseScraper.get url attempt = (none, [.requestFailed url]) ∧
      BaseScraper.post url attempt = (none, [.postFailed url])) ∧
    (∀ r, attempt = .responds r → 400 ≤ r.status_code → r.status_code < 600 →
      BaseScraper.get url attempt = (none, [.requestFailed url]) ∧
      BaseScraper.post url attempt = (none, [.postFailed url])) ∧
    (∀ r, attempt = .responds r → raiseForStatusRaises r = false →
      BaseScraper.get url attempt = (some r, [.getOk url r.status_code]) ∧
      BaseScraper.post url attempt = (some r, [.postOk url r.status_code])) := by
  refine ⟨?_, ?_, ?_⟩
  · intro h; subst h; exact ⟨rfl, rfl⟩
  · intro r h h4 h6; subst h
    have hr : raiseForStatusRaises r = true := by
      simp [raiseForStatusRaises]; omega
    constructor <;> simp [BaseScraper.get, BaseScraper.post, hr]
  · intro r h hr; subst h
    constructor <;> simp [BaseScraper.get, BaseScraper.post, hr]

/-- Witness for C6: a 404 response comes back as `None` with an error
log from both wrappers. -/
theorem c6_witness :
    BaseScraper.get "https://example.com/p" (.responds ⟨404, ""⟩) =
      (none, [.requestFailed "https://example.com/p"]) ∧
    BaseScraper.post "https://example.com/p" (.responds ⟨404, ""⟩) =
      (none, [.postFailed "https://example.com/p"]) :=
  (c6_http_wrappers_return_none_on_failure "https://example.com/p"
    (.responds ⟨404, ""⟩)).2.1 ⟨404, ""⟩ rfl (by decide) (by decide)

theorem rate_limit_wait_last (rate_limit : ℚ) (u : RlState) :
    u.last_request_time + rate_limit ≤
      (BaseScraper.rate_limit_wait rate_limit u).last_request_time := by
  unfold BaseScraper.rate_limit_wait
  by_cases h : u.now - u.last_request_time < rate_limit <;> simp [h] <;> linarith

theorem requestTimes_chain_aux (rate_limit : ℚ) :
    ∀ (ds : List ℚ) (s : RlState),
      List.Chain' (fun a b => a + rate_limit ≤ b) (requestTimes rate_limit s ds) ∧
      ∀ t ∈ (requestTimes rate_limit s ds).head?,
        s.last_request_time + rate_limit ≤ t := by
  intro ds
  induction ds with
  | nil => intro s; simp [requestTimes]
  | cons d ds ih =>
    intro s
    rw [requestTimes]
    obtain ⟨hchain, hhead⟩ :=
      ih (BaseScraper.rate_limit_wait rate_limit { s with now := s.now + d })
    constructor
    · exact List.chain'_cons'.mpr ⟨hhead, hchain⟩
    · intro t ht
      simp only [List.head?_cons, Option.mem_def, Option.some.injEq] at ht
      subst ht
      exact rate_limit_wait_last rate_limit { s with now := s.now + d }

/-- C8: consecutive request issue times of one scraper instance are at
least `rate_limit` apart, for every initial clock state and every list
of ambient delays: `_rate_limit_wait` sleeps for the remaining
difference when needed and records the issue time. -/
theorem c8_rate_limit_spacing (rate_limit : ℚ) (s : RlState) (ds : List ℚ) :
    List.Chain' (fun a b => a + rate_limit ≤ b) (requestTimes rate_limit s ds) :=
  (requestTimes_chain_aux rate_limit ds s).1

theorem filter_count_partition (p : Item → Bool) :
    ∀ (l : List Item) (a : Item),
      (l.filter p).count a + (l.filter (fun x => !p x)).count a = l.count a := by
  intro l a
  have h := List.count_eq_count_filter_add (fun x => p x = true) l a
  simp only [decide_not, Bool.decide_coe] at h
  have he : (fun b => p b) = p := rfl
  rw [he] at h
  omega

theorem batchGo_eq (v : Item → Bool × List String) :
    ∀ items : List Item,
      batchGo v items =
        (items.filter (fun it => (v it).1),
         (items.filter (fun it => !(v it).1)).map (fun it => (it, (v it).2)),
         (items.filter (fun it => !(v it).1)).map (fun it => (v it).2)) := by
  intro items
  induction items with
  | nil => rfl
  | cons it rest ih =>
    cases hv : (v it).1 <;> simp [batchGo, hv, ih, List.filter_cons]

/-- C7: for a known item type, `validate_and_clean_batch` partitions its
input without raising: the valid list is exactly the passing items
unchanged and in order, the invalid list pairs each failing item with its
error list (one warning logged each), every input item lands in exactly
one side counting multiplicity, and only an unknown item type raises
`ValueError`. -/
theorem c7_batch_validation_partitions (usStates : List String)
    (items : List Item) (item_type : String) :
    (∀ v, DataValidator.validators usStates item_type = some v →
      DataValidator.validate_and_clean_batch usStates items item_type =
        .ok (items.filter (fun it => (v it).1),
             (items.filter (fun it => !(v it).1)).map (fun it => (it, (v it).2)),
             (items.filter (fun it => !(v it).1)).map (fun it => (v it).2)) ∧
      ∀ it : Item,
        (items.filter (fun it => (v it).1)).count it +
          (items.filter (fun it => !(v it).1)).count it = items.count it) ∧
    (DataValidator.validators usStates item_type = none ↔
      ¬ item_type ∈ (["team", "player", "game", "game_stat"] : List String)) ∧
    (DataValidator.validators usStates item_type = none →
      DataValidator.validate_and_clean_batch usStates items item_type =
        .error ("Unknown item type: " ++ item_type)) := by
  refine ⟨?_, ?_, ?_⟩
  · intro v hv
    unfold DataValidator.validate_and_clean_batch
    rw [hv]
    refine ⟨?_, fun it => filter_count_partition _ items it⟩
    show Except.ok (batchGo v items) = _
    rw [batchGo_eq]
  · unfold DataValidator.validators
    split_ifs <;> simp_all
  · intro h
    unfold DataValidator.validate_and_clean_batch
    rw [h]

/-- Witness for C7: a two-item team batch splits into one valid and one
invalid item with its errors. -/
theorem c7_witness :
    DataValidator.validate_and_clean_batch []
      [({ team_id := some "EUROLEAGUE_real_madrid", team_name := some "Real Madrid",
          league_id := some "EUROLEAGUE" } : Item),
       ({ team_id := some "bad id!" } : Item)] "team" =
      .ok ([{ team_id := some "EUROLEAGUE_real_madrid", team_name := some "Real Madrid",
              league_id := some "EUROLEAGUE" }],
           [(({ team_id := some "bad id!" } : Item),
             ["Missing team_name", "Missing league_id", "Invalid team_id format: bad id!"])],
           [["Missing team_name", "Missing league_id", "Invalid team_id format: bad id!"]]) := by
  have h := ((c7_batch_validation_partitions []
    [({ team_id := some "EUROLEAGUE_real_madrid", team_name := some "Real Madrid",
        league_id := some "EUROLEAGUE" } : Item),
     ({ team_id := some "bad id!" } : Item)] "team").1
    DataValidator.validate_team rfl).1
  exact h.trans rfl

theorem mergeField_truthy (t s : Option String) :
    truthyStr (mergeField t s) = (truthyStr t || truthyStr s) := by
  unfold mergeField
  cases ht : truthyStr t <;> cases hs : truthyStr s <;> simp [ht, hs]

theorem has_required_merge_mono (r : LookupRecord) (sr : SourceRes) (n : String)
    (h : HometownLookupService.has_required_data r = true) :
    HometownLookupService.has_required_data
      (HometownLookupService.merge_results r sr n) = true := by
  simp only [HometownLookupService.has_required_data,
    HometownLookupService.merge_results, mergeField_truthy, Bool.or_eq_true] at h ⊢
  tauto

theorem has_required_applyOutcome_mono (r : LookupRecord) (n : String) (o : Outcome)
    (h : HometownLookupService.has_required_data r = true) :
    HometownLookupService.has_required_data (applyOutcome r n o) = true := by
  cases o with
  | raises => exact h
  | returns ro =>
    cases ro with
    | none => exact h
    | some sr => exact has_required_merge_mono r sr n h

theorem has_required_accumulate_mono :
    ∀ (ss : List (String × Outcome)) (r : LookupRecord),
      HometownLookupService.has_required_data r = true →
      HometownLookupService.has_required_data (accumulate r ss) = true := by
  intro ss
  induction ss with
  | nil => intro r h; exact h
  | cons p rest ih =>
    intro r h
    obtain ⟨n, o⟩ := p
    exact ih _ (has_required_applyOutcome_mono r n o h)

theorem accumulate_lookup_successful :
    ∀ (ss : List (String × Outcome)) (r : LookupRecord),
      (accumulate r ss).lookup_successful = r.lookup_successful := by
  intro ss
  induction ss with
  | nil => intro r; rfl
  | cons p rest ih =>
    intro r
    obtain ⟨n, o⟩ := p
    rw [accumulate, ih]
    cases o with
    | raises => rfl
    | returns ro =>
      cases ro with
      | none => rfl
      | some sr => rfl

theorem runSources_consulted_claim (db : Option DbEnv) (key : String) :
    ∀ (ss : List (String × Outcome)) (r : LookupRecord),
      HometownLookupService.has_required_data r = false →
      (runSources db key r ss).consulted = claimConsulted r ss := by
  intro ss
  induction ss with
  | nil => intro r _; rfl
  | cons p rest ih =>
    intro r h
    obtain ⟨n, o⟩ := p
    cases o with
    | raises => simp [runSources, claimConsulted, applyOutcome, h, ih r h]
    | returns ro =>
      cases ro with
      | none => simp [runSources, claimConsulted, applyOutcome, h, ih r h]
      | some sr =>
        cases h1 : HometownLookupService.has_required_data
            (HometownLookupService.merge_results r sr n) with
        | true => simp [runSources, claimConsulted, applyOutcome, h1]
        | false => simp [runSources, claimConsulted, applyOutcome, h1, ih _ h1]

theorem runSources_consulted_take (db : Option DbEnv) (key : String) :
    ∀ (ss : List (String × Outcome)) (r : LookupRecord),
      ∃ k, (runSources db key r ss).consulted = (ss.map Prod.fst).take k := by
  intro ss
  induction ss with
  | nil => intro r; exact ⟨0, rfl⟩
  | cons p rest ih =>
    intro r
    obtain ⟨n, o⟩ := p
    cases o with
    | raises =>
      obtain ⟨k, hk⟩ := ih r
      exact ⟨k + 1, by simp [runSources, hk]⟩
    | returns ro =>
      cases ro with
      | none =>
        obtain ⟨k, hk⟩ := ih r
        exact ⟨k + 1, by simp [runSources, hk]⟩
      | some sr =>
        cases h1 : HometownLookupService.has_required_data
            (HometownLookupService.merge_results r sr n) with
        | true => exact ⟨1, by simp [runSources, h1]⟩
        | false =>
          obtain ⟨k, hk⟩ := ih (HometownLookupService.merge_results r sr n)
          exact ⟨k + 1, by simp [runSources, h1, hk]⟩


theorem lookup_not_fromCache (uni : String → String) (db : Option DbEnv)
    (o1 o2 o3 : Outcome) (player_name : Option String) (force_refresh : Bool)
    (h : (HometownLookupService.lookup_player_hometown uni db o1 o2 o3 player_name
        force_refresh).fromCache = false) :
    HometownLookupService.lookup_player_hometown uni db o1 o2 o3 player_name force_refresh =
      HometownLookupService.lookup_core db (BaseScraper.normalize_name uni player_name)
        o1 o2 o3 := by
  simp only [HometownLookupService.lookup_player_hometown] at h ⊢
  split at h
  · split at h
    · simp at h
    · next hcs => simp [hcs]
  · rfl

theorem lookup_core_consulted_take (db : Option DbEnv) (key : String)
    (o1 o2 o3 : Outcome) :
    ∃ k, (HometownLookupService.lookup_core db key o1 o2 o3).consulted =
      scraperNames.take k := by
  obtain ⟨k, hk⟩ := runSources_consulted_take db key (scrapersInit o1 o2 o3) initResult
  exact ⟨k, hk⟩

theorem lookup_core_consulted_claim (db : Option DbEnv) (key : String)
    (o1 o2 o3 : Outcome) :
    (HometownLookupService.lookup_core db key o1 o2 o3).consulted =
      claimConsulted initResult (scrapersInit o1 o2 o3) :=
  runSources_consulted_claim db key (scrapersInit o1 o2 o3) initResult (by decide)

theorem lookup_consulted_take (uni : String → String) (db : Option DbEnv)
    (o1 o2 o3 : Outcome) (player_name : Option String) (force_refresh : Bool) :
    ∃ k, (HometownLookupService.lookup_player_hometown uni db o1 o2 o3 player_name
        force_refresh).consulted = scraperNames.take k := by
  simp only [HometownLookupService.lookup_player_hometown]
  split
  · split
    · exact ⟨0, rfl⟩
    · exact lookup_core_consulted_take db _ o1 o2 o3
  · exact lookup_core_consulted_take db _ o1 o2 o3

/-- C1: when the lookup does not return from the cache, the consulted
sources are exactly the specification's: basketball_reference, then
wikipedia, then grokepedia, stopping as soon as the accumulated result
has hometown state or high school populated (so later sources are never
consulted). -/
theorem c1_sources_consulted_in_priority_order (uni : String → String)
    (db : Option DbEnv) (o1 o2 o3 : Outcome) (player_name : Option String)
    (force_refresh : Bool)
    (hmiss : (HometownLookupService.lookup_player_hometown uni db o1 o2 o3 player_name
        force_refresh).fromCache = false) :
    (HometownLookupService.lookup_player_hometown uni db o1 o2 o3 player_name
        force_refresh).consulted = claimConsulted initResult (scrapersInit o1 o2 o3) ∧
    ∃ k, (HometownLookupService.lookup_player_hometown uni db o1 o2 o3 player_name
        force_refresh).consulted = scraperNames.take k := by
  refine ⟨?_, lookup_consulted_take uni db o1 o2 o3 player_name force_refresh⟩
  rw [lookup_not_fromCache uni db o1 o2 o3 player_name force_refresh hmiss]
  exact lookup_core_consulted_claim db _ o1 o2 o3

/-- Witness for C1: with no database, a first source raising and a
second source returning a hometown state, exactly the first two sources
are consulted. -/
theorem c1_witness :
    (HometownLookupService.lookup_player_hometown id none .raises
        (.returns (some { hometown_state := some "Ohio" })) (.returns none)
        (some "John Smith") false).fromCache = false ∧
    (HometownLookupService.lookup_player_hometown id none .raises
        (.returns (some { hometown_state := some "Ohio" })) (.returns none)
        (some "John Smith") false).consulted =
      claimConsulted initResult (scrapersInit .raises
        (.returns (some { hometown_state := some "Ohio" })) (.returns none)) :=
  ⟨by decide,
    (c1_sources_consulted_in_priority_order id none .raises
      (.returns (some { hometown_state := some "Ohio" })) (.returns none)
      (some "John Smith") false (by decide)).1⟩

/-- C5: every lookup terminates after consulting at most three sources,
each at most once: the consulted list is a prefix of the fixed
three-element scraper list. -/
theorem c5_lookup_consults_at_most_three_sources_once (uni : String → String)
    (db : Option DbEnv) (o1 o2 o3 : Outcome) (player_name : Option String)
    (force_refresh : Bool) :
    ∃ k, (HometownLookupService.lookup_player_hometown uni db o1 o2 o3 player_name
        force_refresh).consulted = scraperNames.take k ∧
    (HometownLookupService.lookup_player_hometown uni db o1 o2 o3 player_name
        force_refresh).consulted.length ≤ 3 ∧
    (HometownLookupService.lookup_player_hometown uni db o1 o2 o3 player_name
        force_refresh).consulted.Nodup := by
  obtain ⟨k, hk⟩ := lookup_consulted_take uni db o1 o2 o3 player_name force_refresh
  refine ⟨k, hk, ?_, ?_⟩
  · rw [hk, List.length_take]
    exact le_trans (min_le_right _ _) (by decide)
  · rw [hk]
    exact (List.take_sublist k scraperNames).nodup (by decide)

theorem accumulate_cons (r : LookupRecord) (n : String) (o : Outcome)
    (rest : List (String × Outcome)) :
    accumulate r ((n, o) :: rest) = accumulate (applyOutcome r n o) rest := rfl

theorem runSources_result_no_required (db : Option DbEnv) (key : String) :
    ∀ (ss : List (String × Outcome)) (r : LookupRecord),
      HometownLookupService.has_required_data (accumulate r ss) = false →
      (runSources db key r ss).result = accumulate r ss := by
  intro ss
  induction ss with
  | nil => intro r _; rfl
  | cons p rest ih =>
    intro r h
    obtain ⟨n, o⟩ := p
    cases o with
    | raises =>
      rw [accumulate_cons] at h ⊢
      simpa [runSources, applyOutcome] using ih r (by simpa [applyOutcome] using h)
    | returns ro =>
      cases ro with
      | none =>
        rw [accumulate_cons] at h ⊢
        simpa [runSources, applyOutcome] using ih r (by simpa [applyOutcome] using h)
      | some sr =>
        rw [accumulate_cons] at h ⊢
        have hacc : HometownLookupService.has_required_data
            (accumulate (HometownLookupService.merge_results r sr n) rest) = false := by
          simpa [applyOutcome] using h
        have h1 : HometownLookupService.has_required_data
            (HometownLookupService.merge_results r sr n) = false := by
          cases h1 : HometownLookupService.has_required_data
              (HometownLookupService.merge_results r sr n) with
          | false => rfl
          | true =>
            rw [has_required_accumulate_mono rest _ h1] at hacc
            cases hacc
        simp only [runSources, h1, if_false, applyOutcome]
        exact ih _ hacc

theorem lookup_core_total_failure (db : Option DbEnv) (key : String)
    (o1 o2 o3 : Outcome)
    (hfail : HometownLookupService.has_required_data
      (accumulate initResult (scrapersInit o1 o2 o3)) = false) :
    (HometownLookupService.lookup_core db key o1 o2 o3).result.lookup_successful = false ∧
    (HometownLookupService.lookup_core db key o1 o2 o3).result.needs_manual_review = true := by
  have hres : (runSources db key initResult (scrapersInit o1 o2 o3)).result =
      accumulate initResult (scrapersInit o1 o2 o3) :=
    runSources_result_no_required db key (scrapersInit o1 o2 o3) initResult hfail
  have hsucc : (runSources db key initResult (scrapersInit o1 o2 o3)).result.lookup_successful
      = false := by
    rw [hres, accumulate_lookup_successful]
    rfl
  constructor <;> simp [HometownLookupService.lookup_core, hsucc]

/-- C3: when no source yields the minimum required data (and the lookup
does not return from the cache), the returned record has
`needs_manual_review = True` and `lookup_successful = False` — for every
behaviour of the scrapers, a raising scraper included, since the
embedding is a total function of the outcomes — and the batch processor
marks such a player for review instead of updating the record. -/
theorem c3_total_failure_flags_manual_review (uni : String → String) (d : DbEnv)
    (outs : Option String → Outcome × Outcome × Outcome) (p : PlayerRow)
    (players : List PlayerRow) (hp : p ∈ players)
    (hmiss : (HometownLookupService.lookup_player_hometown uni (some d)
        (outs p.full_name).1 (outs p.full_name).2.1 (outs p.full_name).2.2
        p.full_name false).fromCache = false)
    (hfail : HometownLookupService.has_required_data (accumulate initResult
        (scrapersInit (outs p.full_name).1 (outs p.full_name).2.1
          (outs p.full_name).2.2)) = false) :
    (HometownLookupService.lookup_player_hometown uni (some d)
        (outs p.full_name).1 (outs p.full_name).2.1 (outs p.full_name).2.2
        p.full_name false).result.lookup_successful = false ∧
    (HometownLookupService.lookup_player_hometown uni (some d)
        (outs p.full_name).1 (outs p.full_name).2.1 (outs p.full_name).2.2
        p.full_name false).result.needs_manual_review = true ∧
    HometownLookupService.process_player uni d outs p = .markForReview p.player_id ∧
    DbAction.markForReview p.player_id ∈
      HometownLookupService.process_all_american_players uni d outs players := by
  have hl := lookup_not_fromCache uni (some d) (outs p.full_name).1 (outs p.full_name).2.1
    (outs p.full_name).2.2 p.full_name false hmiss
  have hcore := lookup_core_total_failure (some d)
    (BaseScraper.normalize_name uni p.full_name) (outs p.full_name).1
    (outs p.full_name).2.1 (outs p.full_name).2.2 hfail
  refine ⟨by rw [hl]; exact hcore.1, by rw [hl]; exact hcore.2, ?_, ?_⟩
  · simp only [HometownLookupService.process_player]
    rw [hl]
    simp [hcore.1]
  · have hpp : HometownLookupService.process_player uni d outs p =
        .markForReview p.player_id := by
      simp only [HometownLookupService.process_player]
      rw [hl]
      simp [hcore.1]
    rw [← hpp]
    exact List.mem_map_of_mem _ hp

/-- Witness for C3: every source fails for the only player in the batch,
who ends up marked for review. -/
theorem c3_witness :
    (({ player_id := some "p1", full_name := some "John Smith" } : PlayerRow) ∈
      [({ player_id := some "p1", full_name := some "John Smith" } : PlayerRow)]) ∧
    DbAction.markForReview (some "p1") ∈
      HometownLookupService.process_all_american_players id
        ⟨fun _ => .ok none, fun _ _ => false⟩
        (fun _ => (.raises, .returns none, .returns none))
        [({ player_id := some "p1", full_name := some "John Smith" } : PlayerRow)] :=
  ⟨by decide,
    (c3_total_failure_flags_manual_review id ⟨fun _ => .ok none, fun _ _ => false⟩
      (fun _ => (.raises, .returns none, .returns none))
      { player_id := some "p1", full_name := some "John Smith" }
      [{ player_id := some "p1", full_name := some "John Smith" }]
      (by decide) (by decide) (by decide)).2.2.2⟩

theorem cache_result_key (db : Option DbEnv) (key n : String) (sr : SourceRes) :
    ∀ e ∈ HometownLookupService.cache_result db key n sr, e.1 = key := by
  intro e he
  cases db with
  | none => simp [HometownLookupService.cache_result] at he
  | some d =>
    by_cases hw : d.cacheWriteRaises key n <;>
      simp [HometownLookupService.cache_result, hw] at he
    rw [he]

theorem runSources_writes_key (db : Option DbEnv) (key : String) :
    ∀ (ss : List (String × Outcome)) (r : LookupRecord),
      ∀ e ∈ (runSources db key r ss).cacheWrites, e.1 = key := by
  intro ss
  induction ss with
  | nil => intro r e he; simp [runSources] at he
  | cons p rest ih =>
    intro r e he
    obtain ⟨n, o⟩ := p
    cases o with
    | raises => exact ih r e (by simpa [runSources] using he)
    | returns ro =>
      cases ro with
      | none => exact ih r e (by simpa [runSources] using he)
      | some sr =>
        cases h1 : HometownLookupService.has_required_data
            (HometownLookupService.merge_results r sr n) with
        | true =>
          rw [runSources] at he
          simp only [h1, if_true] at he
          exact cache_result_key db key n sr e he
        | false =>
          rw [runSources] at he
          simp only [h1, Bool.false_eq_true, if_false] at he
          rcases List.mem_append.mp he with h' | h'
          · exact cache_result_key db key n sr e h'
          · exact ih _ e h'

theorem runSources_consulted_subset (db : Option DbEnv) (key : String)
    (ss : List (String × Outcome)) (r : LookupRecord) :
    ∀ x ∈ (runSources db key r ss).consulted, x ∈ ss.map Prod.fst := by
  obtain ⟨k, hk⟩ := runSources_consulted_take db key ss r
  rw [hk]
  exact fun x hx => (List.take_sublist k _).subset hx

theorem runSources_writes_mem (d : DbEnv) (key : String) :
    ∀ (ss : List (String × Outcome)) (r : LookupRecord) (n : String) (sr : SourceRes),
      (ss.map Prod.fst).Nodup → (n, Outcome.returns (some sr)) ∈ ss →
      n ∈ (runSources (some d) key r ss).consulted →
      d.cacheWriteRaises key n = false →
      (key, n, sr) ∈ (runSources (some d) key r ss).cacheWrites := by
  intro ss
  induction ss with
  | nil => intro r n sr _ _ hc _; simp [runSources] at hc
  | cons p rest ih =>
    intro r n sr hnd hmem hc hw
    obtain ⟨m, om⟩ := p
    rw [List.map_cons] at hnd
    obtain ⟨hm1, hm2⟩ := List.nodup_cons.mp hnd
    cases om with
    | raises =>
      rw [runSources] at hc ⊢
      have hpair : (n, Outcome.returns (some sr)) ∈ rest := by
        rcases List.mem_cons.mp hmem with h' | h'
        · cases h'
        · exact h'
      rcases List.mem_cons.mp hc with hnm | hc'
      · subst hnm
        exact absurd (List.mem_map_of_mem Prod.fst hpair) hm1
      · exact ih r n sr hm2 hpair hc' hw
    | returns ro =>
      cases ro with
      | none =>
        rw [runSources] at hc ⊢
        have hpair : (n, Outcome.returns (some sr)) ∈ rest := by
          rcases List.mem_cons.mp hmem with h' | h'
          · cases h'
          · exact h'
        rcases List.mem_cons.mp hc with hnm | hc'
        · subst hnm
          exact absurd (List.mem_map_of_mem Prod.fst hpair) hm1
        · exact ih r n sr hm2 hpair hc' hw
      | some sr0 =>
        cases h1 : HometownLookupService.has_required_data
            (HometownLookupService.merge_results r sr0 m) with
        | true =>
          rw [runSources] at hc ⊢
          simp only [h1, if_true] at hc ⊢
          rcases List.mem_singleton.mp hc with hnm
          subst hnm
          have hsr : sr = sr0 := by
            rcases List.mem_cons.mp hmem with h' | h'
            · cases h'; rfl
            · exact absurd (List.mem_map_of_mem Prod.fst h') hm1
          subst hsr
          simp [HometownLookupService.cache_result, hw]
        | false =>
          rw [runSources] at hc ⊢
          simp only [h1, Bool.false_eq_true, if_false] at hc ⊢
          rcases List.mem_cons.mp hc with hnm | hc'
          · subst hnm
            have hsr : sr = sr0 := by
              rcases List.mem_cons.mp hmem with h' | h'
              · cases h'; rfl
              · exact absurd (List.mem_map_of_mem Prod.fst h') hm1
            subst hsr
            rw [List.mem_append]
            exact Or.inl (by simp [HometownLookupService.cache_result, hw])
          · have hpair : (n, Outcome.returns (some sr)) ∈ rest := by
              rcases List.mem_cons.mp hmem with h' | h'
              · exfalso
                cases h'
                exact hm1 (runSources_consulted_subset (some d) key rest _ _ hc')
              · exact h'
            rw [List.mem_append]
            exact Or.inr (ih _ n sr hm2 hpair hc' hw)

theorem runSources_db_independent (key : String) :
    ∀ (ss : List (String × Outcome)) (db db' : Option DbEnv) (r : LookupRecord),
      (runSources db key r ss).result = (runSources db' key r ss).result ∧
      (runSources db key r ss).consulted = (runSources db' key r ss).consulted := by
  intro ss
  induction ss with
  | nil => intro db db' r; exact ⟨rfl, rfl⟩
  | cons p rest ih =>
    intro db db' r
    obtain ⟨n, o⟩ := p
    cases o with
    | raises =>
      obtain ⟨h1, h2⟩ := ih db db' r
      exact ⟨by simp [runSources, h1], by simp [runSources, h2]⟩
    | returns ro =>
      cases ro with
      | none =>
        obtain ⟨h1, h2⟩ := ih db db' r
        exact ⟨by simp [runSources, h1], by simp [runSources, h2]⟩
      | some sr =>
        cases h1 : HometownLookupService.has_required_data
            (HometownLookupService.merge_results r sr n) with
        | true => exact ⟨by simp [runSources, h1], by simp [runSources, h1]⟩
        | false =>
          obtain ⟨h2, h3⟩ := ih db db' (HometownLookupService.merge_results r sr n)
          exact ⟨by simp [runSources, h1, h2], by simp [runSources, h1, h3]⟩

theorem lookup_core_db_independent (key : String) (o1 o2 o3 : Outcome)
    (db db' : Option DbEnv) :
    (HometownLookupService.lookup_core db key o1 o2 o3).result =
      (HometownLookupService.lookup_core db' key o1 o2 o3).result ∧
    (HometownLookupService.lookup_core db key o1 o2 o3).consulted =
      (HometownLookupService.lookup_core db' key o1 o2 o3).consulted := by
  obtain ⟨h1, h2⟩ := runSources_db_independent key (scrapersInit o1 o2 o3) db db' initResult
  exact ⟨by simp [HometownLookupService.lookup_core, h1], by
    simp [HometownLookupService.lookup_core, h2]⟩

theorem scrapersInit_names (o1 o2 o3 : Outcome) :
    (scrapersInit o1 o2 o3).map Prod.fst = scraperNames := rfl

theorem lookup_db_write_independent (uni : String → String) (d d' : DbEnv)
    (o1 o2 o3 : Outcome) (player_name : Option String) (force_refresh : Bool)
    (hg : d'.getCache = d.getCache) :
    (HometownLookupService.lookup_player_hometown uni (some d') o1 o2 o3
      player_name force_refresh).result =
      (HometownLookupService.lookup_player_hometown uni (some d) o1 o2 o3
        player_name force_refresh).result ∧
    (HometownLookupService.lookup_player_hometown uni (some d') o1 o2 o3
      player_name force_refresh).consulted =
      (HometownLookupService.lookup_player_hometown uni (some d) o1 o2 o3
        player_name force_refresh).consulted := by
  have hgc : HometownLookupService.get_cached_result (some d')
      (BaseScraper.normalize_name uni player_name) =
      HometownLookupService.get_cached_result (some d)
        (BaseScraper.normalize_name uni player_name) := by
    simp [HometownLookupService.get_cached_result, hg]
  simp only [HometownLookupService.lookup_player_hometown, Option.isSome_some, hgc,
    Bool.and_true]
  cases force_refresh with
  | true =>
    simpa using lookup_core_db_independent _ o1 o2 o3 (some d') (some d)
  | false =>
    simp only [Bool.not_false, if_true]
    cases hcv : HometownLookupService.get_cached_result (some d)
        (BaseScraper.normalize_name uni player_name) with
    | none => exact lookup_core_db_independent _ o1 o2 o3 (some d') (some d)
    | some c =>
      cases hcs : c.lookup_successful with
      | true => simp [hcs]
      | false =>
        simp only [hcs, Bool.false_eq_true, if_false]
        exact lookup_core_db_independent _ o1 o2 o3 (some d') (some d)

/-- C4: when a database is attached and the lookup does not return from
the cache, every successful cache write is keyed by the normalized
player name; every consulted source that returned a truthy result is
stored under that key with its raw result (when its write does not
raise); and the write-failure behaviour of the database influences
neither the returned record nor the consulted sources. -/
theorem c4_cache_writes_keyed_by_normalized_name (uni : String → String) (d : DbEnv)
    (o1 o2 o3 : Outcome) (player_name : Option String) (force_refresh : Bool)
    (hmiss : (HometownLookupService.lookup_player_hometown uni (some d) o1 o2 o3
        player_name force_refresh).fromCache = false) :
    (∀ e ∈ (HometownLookupService.lookup_player_hometown uni (some d) o1 o2 o3
        player_name force_refresh).cacheWrites,
      e.1 = BaseScraper.normalize_name uni player_name) ∧
    (∀ (n : String) (sr : SourceRes),
      (n, Outcome.returns (some sr)) ∈ scrapersInit o1 o2 o3 →
      n ∈ (HometownLookupService.lookup_player_hometown uni (some d) o1 o2 o3
        player_name force_refresh).consulted →
      d.cacheWriteRaises (BaseScraper.normalize_name uni player_name) n = false →
      (BaseScraper.normalize_name uni player_name, n, sr) ∈
        (HometownLookupService.lookup_player_hometown uni (some d) o1 o2 o3
          player_name force_refresh).cacheWrites) ∧
    (∀ d' : DbEnv, d'.getCache = d.getCache →
      (HometownLookupService.lookup_player_hometown uni (some d') o1 o2 o3
        player_name force_refresh).result =
        (HometownLookupService.lookup_player_hometown uni (some d) o1 o2 o3
          player_name force_refresh).result ∧
      (HometownLookupService.lookup_player_hometown uni (some d') o1 o2 o3
        player_name force_refresh).consulted =
        (HometownLookupService.lookup_player_hometown uni (some d) o1 o2 o3
          player_name force_refresh).consulted) := by
  have hl := lookup_not_fromCache uni (some d) o1 o2 o3 player_name force_refresh hmiss
  refine ⟨?_, ?_, ?_⟩
  · rw [hl]
    exact runSources_writes_key (some d) _ (scrapersInit o1 o2 o3) initResult
  · intro n sr hmem hc hw
    rw [hl] at hc ⊢
    refine runSources_writes_mem d _ (scrapersInit o1 o2 o3) initResult n sr ?_ hmem hc hw
    rw [scrapersInit_names]
    decide
  · intro d' hg
    exact lookup_db_write_independent uni d d' o1 o2 o3 player_name force_refresh hg

/-- Witness for C4: with one truthy source, its raw result is cached
under the normalized player name. -/
theorem c4_witness :
    (BaseScraper.normalize_name id (some "John Smith"), "basketball_reference",
      ({ hometown_state := some "Ohio" } : SourceRes)) ∈
      (HometownLookupService.lookup_player_hometown id
        (some ⟨fun _ => .ok none, fun _ _ => false⟩)
        (.returns (some { hometown_state := some "Ohio" })) (.returns none) .raises
        (some "John Smith") false).cacheWrites :=
  (c4_cache_writes_keyed_by_normalized_name id ⟨fun _ => .ok none, fun _ _ => false⟩
    (.returns (some { hometown_state := some "Ohio" })) (.returns none) .raises
    (some "John Smith") false (by decide)).2.1 "basketball_reference"
    { hometown_state := some "Ohio" } (by decide) (by decide) (by decide)
